import Mathlib

/-!
Verification development for the federated-learning client in `client.py`
(repository `Federated-Learning-with-Blockchain-`).

The embedding models tensors as flat lists of rationals and parameter sets
(`state_dict`s) as ordered association lists from layer names to tensors.
Side-effecting operations (checkpointing, logging, gradient steps) are
modelled by explicit event traces, and Python exceptions by `Except`.
-/

namespace FLClient

/-- A tensor, flattened to its list of elements (reals modelled by `ℚ`). -/
abbrev Tensor := List ℚ

/-- A `state_dict`: an ordered mapping from layer name to tensor. -/
abbrev StateDict := List (String × Tensor)

/-- Dictionary lookup: the value bound to `name`, mirroring `params[name]` /
`name in params` on a Python (ordered) dict. -/
def lookupParam : StateDict → String → Option Tensor
  | [], _ => none
  | p :: ps, name => if p.1 = name then some p.2 else lookupParam ps name

/-- `((param1 - param2) ** 2).sum()`: elementwise squared difference of two
equal-shape tensors, summed. -/
def sqDiffSum (t1 t2 : Tensor) : ℚ :=
  ((t1.zip t2).map (fun p => (p.1 - p.2) ^ 2)).sum

/-- The accumulation loop shared by both accepted branches of
`Client.diff_squared_sum` (client.py lines 152-175): iterate the entries of
the second model and, for every name also present in `params1`, add
`((param1 - param2) ** 2).sum()`. -/
def dssShared (params1 : StateDict) (params2 : List (String × Tensor)) : ℚ :=
  (params2.filterMap
    (fun p => (lookupParam params1 p.1).map (fun t1 => sqDiffSum t1 p.2))).sum

/-- The possible runtime types of the argument `model2` of
`Client.diff_squared_sum`, as discriminated by the `isinstance` chain in the
source: a `torch.nn.Module` (carrying its `named_parameters()`), a
`collections.OrderedDict`, a plain `dict` that is *not* an `OrderedDict`
(in Python `isinstance({}, OrderedDict)` is `False`), or any other value. -/
inductive Model2Arg
  | module (namedParams : List (String × Tensor))
  | odict (entries : List (String × Tensor))
  | plainDict (entries : List (String × Tensor))
  | other
deriving DecidableEq

/-- Whether the argument is a recognized model object (`isinstance(model2, nn.Module)`). -/
def isModelObject : Model2Arg → Bool
  | Model2Arg.module _ => true
  | _ => false

/-- Whether the argument is an `OrderedDict` (`isinstance(model2, OrderedDict)`). -/
def isOrderedDictArg : Model2Arg → Bool
  | Model2Arg.odict _ => true
  | _ => false

/-- Whether the argument is a plain name-to-tensor mapping in the Python
sense: a `dict` (ordered or not) binding names to tensors. -/
def isNameToTensorMapping : Model2Arg → Bool
  | Model2Arg.odict _ => true
  | Model2Arg.plainDict _ => true
  | _ => false

/-- The error message of the `ValueError` raised by `Client.diff_squared_sum`. -/
def unsupportedModelMsg : String :=
  "Unsupported model type. Model must be a PyTorch model or an OrderedDict."

/-- `Client.diff_squared_sum` (client.py lines 152-175): dispatch on the
runtime type of `model2`; `nn.Module` and `OrderedDict` arguments are summed
over names shared with `params1`, anything else raises `ValueError`. -/
def diff_squared_sum (params1 : StateDict) : Model2Arg → Except String ℚ
  | Model2Arg.module ps => Except.ok (dssShared params1 ps)
  | Model2Arg.odict ps => Except.ok (dssShared params1 ps)
  | Model2Arg.plainDict _ => Except.error unsupportedModelMsg
  | Model2Arg.other => Except.error unsupportedModelMsg

/-- The sum written the way the spec phrases it: over the entries of the
round-start snapshot whose name is also present in the current parameter
set, the summed squared elementwise difference between the current tensor
and the snapshot tensor. -/
def sharedSqDistSpec (cur snap : StateDict) : ℚ :=
  ((snap.filter (fun p => (lookupParam cur p.1).isSome)).map
    (fun p => sqDiffSum ((lookupParam cur p.1).getD []) p.2)).sum

/-- The per-batch loss after the objective-dependent addition in
`Client.train` (client.py lines 212-214):
`if type in ["fed_prox", "fed_greedy"]: loss += (mu / 2) * self.diff_squared_sum(server_model)`,
where `server_model` is the round-start deep copy of the state dict (an
`OrderedDict`). -/
def batchLossWithProx (tpe : String) (mu primary : ℚ) (cur snap : StateDict) : ℚ :=
  if tpe = "fed_prox" ∨ tpe = "fed_greedy" then
    primary + (mu / 2) * ((diff_squared_sum cur (Model2Arg.odict snap)).toOption.getD 0)
  else primary

lemma dssShared_eq_spec (p1 : StateDict) (ps : List (String × Tensor)) :
    dssShared p1 ps =
      ((ps.filter (fun p => (lookupParam p1 p.1).isSome)).map
        (fun p => sqDiffSum ((lookupParam p1 p.1).getD []) p.2)).sum := by
  induction ps with
  | nil => rfl
  | cons hd tl ih =>
    cases hl : lookupParam p1 hd.1 with
    | none =>
      simp [dssShared, List.filterMap_cons, List.filter_cons, hl] at ih ⊢
      exact ih
    | some t1 =>
      simp [dssShared, List.filterMap_cons, List.filter_cons, hl] at ih ⊢
      exact ih

/-! ## Parameter exchange: `update_nn_parameters` -/

/-- The network state after `torch.nn.Module.load_state_dict(new, strict=True)`
has traversed the module: every parameter whose name occurs in `new` is
overwritten with the supplied tensor, parameters absent from `new` keep
their prior values. In PyTorch the copy into the module happens during the
traversal, before the strict-mode key check. -/
def loadedState (cur new : StateDict) : StateDict :=
  cur.map (fun p => (p.1, (lookupParam new p.1).getD p.2))

/-- The names the strict-mode check reports as missing: expected by the
network but absent from the supplied parameter set. -/
def missingKeys (cur new : StateDict) : List String :=
  (cur.filter (fun p => (lookupParam new p.1).isNone)).map Prod.fst

/-- The names the strict-mode check reports as unexpected: present in the
supplied parameter set but not in the network. -/
def unexpectedKeys (cur new : StateDict) : List String :=
  (new.filter (fun p => (lookupParam cur p.1).isNone)).map Prod.fst

/-- `Client.update_nn_parameters` (client.py lines 130-137):
`self.net.load_state_dict(copy.deepcopy(new_params), strict=True)`.
`copy.deepcopy` is the identity on the values exchanged. The first
component is the network's parameter set after the call, the second the
`RuntimeError` that `load_state_dict` raises, after having already copied
the matching entries in, when strict key matching finds missing or
unexpected keys. -/
def update_nn_parameters (cur new : StateDict) : StateDict × Option String :=
  (loadedState cur new,
    if missingKeys cur new = [] ∧ unexpectedKeys cur new = [] then none
    else some "Error(s) in loading state_dict")

/-! ## Training loop: `Client.train` as an event trace -/

/-- The externally visible events of one `train` call: persisting the
start-suffix checkpoint, one optimizer gradient step per batch, one
scheduler step per epoch, persisting the end-suffix checkpoint. -/
inductive TrainEvent
  | saveStart (round : Nat)
  | gradStep (epoch : Nat) (batch : Nat)
  | schedStep
  | saveEnd (round : Nat)
deriving DecidableEq

/-- Python runtime errors raised by the modelled methods. -/
inductive PyErr
  | unboundLocalError
  | zeroDivisionError
deriving DecidableEq

/-- The event trace of one iteration of the epoch loop in `Client.train`
(client.py lines 195-231): `save_model(round, start_suffix)` first, then one
gradient step per batch of the training loader, then `scheduler.step()`. -/
def epochTrace (round epoch numBatches : Nat) : List TrainEvent :=
  TrainEvent.saveStart round ::
    (((List.range numBatches).map (fun i => TrainEvent.gradStep epoch i)) ++
      [TrainEvent.schedStep])

/-- The value of the local variable `running_loss` at the end of one epoch:
initialized to `0.0`, incremented by `loss.item()` for each batch, and reset
to `0.0` at each logging point (`i % log_interval == 0`, only during the
last epoch). `losses i` is the `loss.item()` of batch `i`. -/
def epochRunningLoss (logInterval : Nat) (isLastEpoch : Bool)
    (losses : Nat → ℚ) (numBatches : Nat) : ℚ :=
  (List.range numBatches).foldl
    (fun rl i =>
      if i % logInterval = 0 ∧ isLastEpoch = true then 0 else rl + losses i)
    0

/-- Outcome of one `Client.train` call: the event trace and either the
returned `running_loss` or the exception raised at the `return` statement. -/
structure TrainOut where
  trace : List TrainEvent
  result : Except PyErr ℚ

/-- `Client.train` (client.py lines 177-232), abstracted to its event trace
and returned value. Per epoch: `save_model(round, start_suffix)`, the batch
loop, `scheduler.step()`; after the loop `save_model(round, end_suffix)`
(the end save emits `saveEnd`); finally `return running_loss`. The local
`running_loss` is assigned only inside the epoch loop, so with `epochs = 0`
the `return` raises `UnboundLocalError`; otherwise the returned value is
the last epoch's final `running_loss`. `batchLoss e i` is the `loss.item()`
of batch `i` in epoch `e`. -/
def train (round epochs numBatches logInterval : Nat)
    (batchLoss : Nat → Nat → ℚ) : TrainOut :=
  { trace :=
      (((List.range epochs).map (fun e => epochTrace round e numBatches)).flatten) ++
        [TrainEvent.saveEnd round]
    result :=
      if epochs = 0 then Except.error PyErr.unboundLocalError
      else
        Except.ok
          (epochRunningLoss logInterval true (batchLoss (epochs - 1)) numBatches) }

/-! ## Checkpointing: `Client.save_model` -/

/-- `os.path.join(dir, rel)` for a relative second component on a POSIX
filesystem. -/
def osPathJoin (dir rel : String) : String := dir ++ "/" ++ rel

/-- Outcome of one `Client.save_model` call: whether `os.mkdir` was invoked,
the full path written, and the payload handed to `torch.save`. -/
structure SaveModelOut where
  mkdirCalled : Bool
  path : String
  content : StateDict

/-- `Client.save_model` (client.py lines 233-244): create the save directory
when `os.path.exists` is false, build
`model_<client_idx>_<epoch>_<suffix>.model` under the save directory, and
`torch.save(self.get_nn_parameters(), full_save_path)` — the payload is the
network's state dict alone (neither optimizer nor scheduler state is
passed). `params` is the network's current parameter set. -/
def save_model (saveDir : String) (clientIdx epoch : Nat) (sfx : String)
    (params : StateDict) (dirExists : Bool) : SaveModelOut :=
  { mkdirCalled := !dirExists
    path :=
      osPathJoin saveDir
        ("model_" ++ toString clientIdx ++ "_" ++ toString epoch ++ "_" ++ sfx ++ ".model")
    content := params }

/-! ## Model loading: `Client.load_model_from_file` -/

/-- Outcome of one `Client.load_model_from_file` call: the resulting
parameter set (or the uncaught exception), the number of warnings logged,
and the number of CPU-mapped retry attempts. -/
structure LoadOut where
  result : Except String StateDict
  warnings : Nat
  cpuRetries : Nat

/-- `Client.load_model_from_file` (client.py lines 78-97). The file's
behaviour is abstracted into `loadOnDefault` (outcome of
`model.load_state_dict(torch.load(path))` on the default device) and
`loadOnCpu` (outcome of the same with `map_location=torch.device('cpu')`);
`fresh` is the freshly constructed, randomly initialized network's state.
If the file is missing, a warning is logged and the fresh model is kept; if
the default-device load fails, a warning is logged and exactly one
CPU-mapped retry runs outside any `try`, so its failure propagates. -/
def load_model_from_file (fileExists : Bool)
    (loadOnDefault loadOnCpu : Except String StateDict)
    (fresh : StateDict) : LoadOut :=
  if fileExists then
    match loadOnDefault with
    | Except.ok sd => { result := Except.ok sd, warnings := 0, cpuRetries := 0 }
    | Except.error _ =>
      match loadOnCpu with
      | Except.ok sd => { result := Except.ok sd, warnings := 1, cpuRetries := 1 }
      | Except.error e => { result := Except.error e, warnings := 1, cpuRetries := 1 }
  else { result := Except.ok fresh, warnings := 1, cpuRetries := 0 }

/-! ## Evaluation: `Client.test`, precision and recall -/

/-- A confusion matrix (or any 2-D integer array), row-major. -/
abbrev Mat := List (List ℤ)

/-- The number of columns `numpy` sees (length of the first row). -/
def numCols (m : Mat) : Nat := (m.headD []).length

/-- The matrix entry at row `i`, column `j`. -/
def entryAt (m : Mat) (i j : Nat) : ℤ := (m.getD i []).getD j 0

/-- `numpy.diagonal(m)`: the entries `m[i][i]` for
`i < min(n_rows, n_cols)`. -/
def diagonal (m : Mat) : List ℤ :=
  (List.range (min m.length (numCols m))).map (fun i => entryAt m i i)

/-- `numpy.sum(m, axis=0)`: column sums. -/
def sumAxis0 (m : Mat) : List ℤ :=
  (List.range (numCols m)).map (fun j => (m.map (fun row => row.getD j 0)).sum)

/-- `numpy.sum(m, axis=1)`: row sums. -/
def sumAxis1 (m : Mat) : List ℤ :=
  m.map (fun row => row.sum)

/-- The column sum at column `j`. -/
def colSumAt (m : Mat) (j : Nat) : ℤ := (m.map (fun row => row.getD j 0)).sum

/-- The row sum at row `i`. -/
def rowSumAt (m : Mat) (i : Nat) : ℤ := (m.getD i []).sum

/-- `numpy` true division of two integers: division by zero yields a
non-finite float (`inf`/`nan`, modelled `none`) together with a
`RuntimeWarning`, never an exception; otherwise the exact quotient. -/
def npDiv (a b : ℤ) : Option ℚ :=
  if b = 0 then none else some ((a : ℚ) / (b : ℚ))

/-- Elementwise `numpy` division of two equal-length integer vectors. -/
def npDivVec (as bs : List ℤ) : List (Option ℚ) :=
  (as.zip bs).map (fun p => npDiv p.1 p.2)

/-- `Client.calculate_class_precision` (client.py lines 250-254):
`numpy.diagonal(confusion_mat) / numpy.sum(confusion_mat, axis=0)`. -/
def calculate_class_precision (confusion_mat : Mat) : List (Option ℚ) :=
  npDivVec (diagonal confusion_mat) (sumAxis0 confusion_mat)

/-- `Client.calculate_class_recall` (client.py lines 256-260):
`numpy.diagonal(confusion_mat) / numpy.sum(confusion_mat, axis=1)`. -/
def calculate_class_recall (confusion_mat : Mat) : List (Option ℚ) :=
  npDivVec (diagonal confusion_mat) (sumAxis1 confusion_mat)

/-- `Client.test` (client.py lines 262-284), abstracted to the accumulation
of `total` and `correct` over the test loader and the accuracy computation.
Each batch is the list of `(predicted, label)` pairs the argmax produces;
`total += labels.size(0)`, `correct += (predicted == labels).sum().item()`,
then `accuracy = 100 * correct / total` — a Python integer division by zero
when the loader yielded no samples, raised before any value is returned. -/
def testAccuracy (batches : List (List (ℤ × ℤ))) : Except PyErr (ℚ × Nat × Nat) :=
  let total := (batches.map List.length).sum
  let correct := (batches.map (fun b => (b.filter (fun p => p.1 == p.2)).length)).sum
  if total = 0 then Except.error PyErr.zeroDivisionError
  else Except.ok (((100 * correct : ℚ) / (total : ℚ)), correct, total)

/-! ## Helper lemmas -/

lemma lookupParam_loadedState (cur new : StateDict) (name : String) :
    lookupParam (loadedState cur new) name =
      (lookupParam cur name).map (fun told => (lookupParam new name).getD told) := by
  induction cur with
  | nil => rfl
  | cons hd tl ih =>
    by_cases h : hd.1 = name
    · simp [loadedState, lookupParam, h]
    · simpa [loadedState, lookupParam, h] using ih

lemma getD_range_map {α : Type} (f : Nat → α) (n c : Nat) (d : α) (h : c < n) :
    ((List.range n).map f).getD c d = f c := by
  rw [List.getD_eq_getElem?_getD, List.getElem?_map, List.getElem?_range h]
  rfl

lemma getD_npDivVec (as : List ℤ) (bs : List ℤ) (c : Nat)
    (h1 : c < as.length) (h2 : c < bs.length) :
    (npDivVec as bs).getD c none = npDiv (as.getD c 0) (bs.getD c 0) := by
  induction as generalizing bs c with
  | nil => cases h1
  | cons a as' ih =>
    cases bs with
    | nil => cases h2
    | cons b bs' =>
      cases c with
      | zero => rfl
      | succ n =>
        simp only [npDivVec, List.zip_cons_cons, List.map_cons, List.getD_cons_succ]
        exact ih bs' n (by simpa using h1) (by simpa using h2)

lemma count_saveStart_epochTrace (r e b : Nat) :
    (epochTrace r e b).count (TrainEvent.saveStart r) = 1 := by
  simp only [epochTrace, List.count_cons, List.count_append]
  have h1 : ((List.range b).map (fun i => TrainEvent.gradStep e i)).count
      (TrainEvent.saveStart r) = 0 := by
    apply List.count_eq_zero.mpr
    intro hmem
    simp [List.mem_map] at hmem
  have h2 : ([TrainEvent.schedStep] : List TrainEvent).count (TrainEvent.saveStart r) = 0 := by
    simp
  simp [h1, h2]

/-! ## Claim theorems -/

/-- Claim C1, counterexample. The network holds parameters
`a = [1], b = [2]`; the supplied set `{a ↦ [5]}` is missing layer `b`.
`update_nn_parameters` does raise the key-mismatch error, but the network's
parameter set after the call is `a = [5], b = [2]`, not its prior value:
PyTorch's strict `load_state_dict` copies matching entries in before it
checks the keys, so the error path does modify parameters. -/
theorem update_strict_error_modifies_params :
    (update_nn_parameters [("a", [1]), ("b", [2])] [("a", [5])]).2.isSome = true ∧
    (update_nn_parameters [("a", [1]), ("b", [2])] [("a", [5])]).1 ≠
      [("a", [1]), ("b", [2])] := by
  constructor
  · simp [update_nn_parameters, missingKeys, unexpectedKeys, lookupParam]
  · intro h
    simp [update_nn_parameters, loadedState, lookupParam] at h

/-- Claim C1, amended: with a parameter set that has a missing or
unexpected layer name, `update_nn_parameters` raises the key-mismatch
error, but the load is not transactional: every network parameter whose
name occurs in `new_params` is overwritten with the supplied tensor before
the error is raised, and only parameters absent from `new_params` keep
their prior values. -/
theorem update_nn_parameters_strict_mismatch (cur new : StateDict)
    (hmis : ¬(missingKeys cur new = [] ∧ unexpectedKeys cur new = [])) :
    (update_nn_parameters cur new).2 = some "Error(s) in loading state_dict" ∧
    ∀ name, lookupParam (update_nn_parameters cur new).1 name =
      (lookupParam cur name).map (fun told => (lookupParam new name).getD told) := by
  constructor
  · simp [update_nn_parameters, hmis]
  · intro name
    simpa [update_nn_parameters] using lookupParam_loadedState cur new name

/-- Witness for the amended C1 theorem at the concrete mismatching input. -/
theorem update_nn_parameters_strict_mismatch_witness :
    ¬(missingKeys [("a", [1]), ("b", [2])] [("a", [5])] = [] ∧
        unexpectedKeys [("a", [1]), ("b", [2])] [("a", [5])] = []) ∧
    (update_nn_parameters [("a", [1]), ("b", [2])] [("a", [5])]).2 =
      some "Error(s) in loading state_dict" :=
  ⟨by simp [missingKeys, unexpectedKeys, lookupParam],
    (update_nn_parameters_strict_mismatch [("a", [1]), ("b", [2])] [("a", [5])]
      (by simp [missingKeys, unexpectedKeys, lookupParam])).1⟩

/-- Claim C2: for a proximal objective (`"fed_prox"` or `"fed_greedy"`),
the quantity added to the primary loss equals `(μ/2)` times the sum, over
parameter names present in both the round-start snapshot and the current
parameter set, of the summed squared elementwise differences; for any other
objective nothing is added; and for a single-parameter network with
snapshot value `w0` and `μ = 2`, the added term is `(w - w0)^2`. -/
theorem train_proximal_addition (tpe : String) (mu primary : ℚ)
    (cur snap : StateDict) (hprox : tpe = "fed_prox" ∨ tpe = "fed_greedy") :
    (batchLossWithProx tpe mu primary cur snap - primary =
      (mu / 2) * sharedSqDistSpec cur snap) ∧
    (∀ tpe2 : String, ¬(tpe2 = "fed_prox" ∨ tpe2 = "fed_greedy") →
      batchLossWithProx tpe2 mu primary cur snap - primary = 0) ∧
    (∀ w w0 p2 : ℚ,
      batchLossWithProx "fed_prox" 2 p2 [("w", [w])] [("w", [w0])] - p2 =
        (w - w0) ^ 2) := by
  refine ⟨?_, ?_, ?_⟩
  · simp [batchLossWithProx, hprox, diff_squared_sum, dssShared_eq_spec, sharedSqDistSpec,
      Except.toOption]
  · intro tpe2 hnot
    simp [batchLossWithProx, hnot]
  · intro w w0 p2
    simp [batchLossWithProx, diff_squared_sum, dssShared, lookupParam, sqDiffSum,
      Except.toOption]

/-- Witness for the C2 theorem at a concrete proximal call. -/
theorem train_proximal_addition_witness :
    (("fed_prox" : String) = "fed_prox" ∨ ("fed_prox" : String) = "fed_greedy") ∧
    batchLossWithProx "fed_prox" 2 5 [("w", [3])] [("w", [1])] - 5 =
      (2 / 2 : ℚ) * sharedSqDistSpec [("w", [3])] [("w", [1])] :=
  ⟨Or.inl rfl,
    (train_proximal_addition "fed_prox" 2 5 [("w", [3])] [("w", [1])] (Or.inl rfl)).1⟩

/-- Claim C3: the code persists the start-suffix checkpoint at the top of
*every* epoch, not once per round. At `train(round = 3, epochs = 2)` with a
one-batch loader the trace records two start-suffix saves, the second of
them after epoch 0's gradient step — contradicting the once-per-round,
before-any-gradient-step claim (the commented-out `epoch == 0` guard in the
source shows the once-per-round intent). -/
theorem start_checkpoint_saved_every_epoch :
    ((train 3 2 1 1 (fun _ _ => 0)).trace.count (TrainEvent.saveStart 3)) = 2 := by
  decide

/-- Claim C5: precision is the diagonal entry over the column sum, recall
the diagonal entry over the row sum; on `[[5,1],[2,4]]` precision is
`[5/7, 4/5]` and recall `[5/6, 4/6]`; a zero column sum yields a non-finite
entry (`none`) for that class instead of raising. -/
theorem precision_recall_from_confusion_matrix :
    (∀ (m : Mat) (c : Nat), c < m.length → c < numCols m →
      (calculate_class_precision m).getD c none =
        npDiv (entryAt m c c) (colSumAt m c)) ∧
    (∀ (m : Mat) (c : Nat), c < m.length → c < numCols m →
      (calculate_class_recall m).getD c none =
        npDiv (entryAt m c c) (rowSumAt m c)) ∧
    calculate_class_precision [[5, 1], [2, 4]] = [some (5 / 7), some (4 / 5)] ∧
    calculate_class_recall [[5, 1], [2, 4]] = [some (5 / 6), some (4 / 6)] ∧
    calculate_class_precision [[0, 1], [0, 4]] = [none, some (4 / 5)] := by
  have hdiag : ∀ (m : Mat) (c : Nat), c < m.length → c < numCols m →
      (diagonal m).getD c 0 = entryAt m c c := by
    intro m c h1 h2
    exact getD_range_map (fun i => entryAt m i i) _ c 0 (by omega)
  have hlen : ∀ m : Mat, (diagonal m).length = min m.length (numCols m) := by
    intro m; simp [diagonal]
  refine ⟨?_, ?_, ?_, ?_, ?_⟩
  · intro m c h1 h2
    rw [calculate_class_precision,
      getD_npDivVec _ _ c (by rw [hlen]; omega) (by simp [sumAxis0]; omega),
      hdiag m c h1 h2]
    congr 1
    exact getD_range_map _ _ c 0 h2
  · intro m c h1 h2
    rw [calculate_class_recall,
      getD_npDivVec _ _ c (by rw [hlen]; omega) (by simp [sumAxis1]; omega),
      hdiag m c h1 h2]
    rw [sumAxis1, rowSumAt, List.getD_eq_getElem?_getD, List.getElem?_map]
    rw [List.getElem?_eq_getElem h1]
    simp [List.getD_eq_getElem?_getD, List.getElem?_eq_getElem h1]
  · norm_num [calculate_class_precision, npDivVec, npDiv, diagonal, numCols,
      sumAxis0, entryAt, List.range_succ]
  · norm_num [calculate_class_recall, npDivVec, npDiv, diagonal, numCols,
      sumAxis1, entryAt, List.range_succ]
  · norm_num [calculate_class_precision, npDivVec, npDiv, diagonal, numCols,
      sumAxis0, entryAt, List.range_succ]

/-- Witness for the C5 theorem: class 0 of the matrix `[[5,1],[2,4]]`. -/
theorem precision_recall_witness :
    (0 < ([[5, 1], [2, 4]] : Mat).length ∧ 0 < numCols [[5, 1], [2, 4]]) ∧
    (calculate_class_precision [[5, 1], [2, 4]]).getD 0 none =
      npDiv (entryAt [[5, 1], [2, 4]] 0 0) (colSumAt [[5, 1], [2, 4]] 0) :=
  ⟨⟨by decide, by decide⟩,
    precision_recall_from_confusion_matrix.1 [[5, 1], [2, 4]] 0 (by decide) (by decide)⟩

/-- Claim C6, counterexample. A plain Python `dict` binding names to
tensors is a plain name-to-tensor mapping and is not a model object, yet
`diff_squared_sum` raises `ValueError` on it: the source accepts only
`nn.Module` and `collections.OrderedDict`, and `isinstance({...}, OrderedDict)`
is false for a plain `dict`. -/
theorem diff_squared_sum_plain_dict_raises :
    isNameToTensorMapping (Model2Arg.plainDict [("w", [1])]) = true ∧
    isModelObject (Model2Arg.plainDict [("w", [1])]) = false ∧
    diff_squared_sum [("w", [0])] (Model2Arg.plainDict [("w", [1])]) =
      Except.error unsupportedModelMsg :=
  ⟨rfl, rfl, rfl⟩

/-- Claim C6, amended: `diff_squared_sum` raises `ValueError` exactly when
the argument is neither an `nn.Module` nor an `OrderedDict` — in particular
a plain (non-ordered) `dict` also raises; for accepted arguments it returns
the sum of squared differences over names shared with the current parameter
set and raises nothing. -/
theorem diff_squared_sum_dispatch (p1 : StateDict) (a : Model2Arg) :
    ((∃ e, diff_squared_sum p1 a = Except.error e) ↔
      (isModelObject a = false ∧ isOrderedDictArg a = false)) ∧
    (∀ ps, diff_squared_sum p1 (Model2Arg.module ps) =
      Except.ok (sharedSqDistSpec p1 ps)) ∧
    (∀ ps, diff_squared_sum p1 (Model2Arg.odict ps) =
      Except.ok (sharedSqDistSpec p1 ps)) := by
  refine ⟨?_, ?_, ?_⟩
  · cases a <;> simp [diff_squared_sum, isModelObject, isOrderedDictArg]
  · intro ps
    simp [diff_squared_sum, dssShared_eq_spec, sharedSqDistSpec]
  · intro ps
    simp [diff_squared_sum, dssShared_eq_spec, sharedSqDistSpec]

/-- Claim C7: a missing file keeps the fresh random initialization with a
warning and no error; a default-device deserialization failure triggers
exactly one CPU-mapped retry (and a successful default-device load
triggers none); if the retry also fails the error propagates uncaught. -/
theorem load_model_from_file_fallbacks (fe : Bool)
    (onDefault onCpu : Except String StateDict) (fresh : StateDict) :
    (fe = false → load_model_from_file fe onDefault onCpu fresh =
      { result := Except.ok fresh, warnings := 1, cpuRetries := 0 }) ∧
    (∀ e, fe = true → onDefault = Except.error e →
      (load_model_from_file fe onDefault onCpu fresh).cpuRetries = 1 ∧
      (load_model_from_file fe onDefault onCpu fresh).warnings = 1) ∧
    (∀ sd, fe = true → onDefault = Except.ok sd →
      (load_model_from_file fe onDefault onCpu fresh).cpuRetries = 0) ∧
    (∀ e e2, fe = true → onDefault = Except.error e → onCpu = Except.error e2 →
      (load_model_from_file fe onDefault onCpu fresh).result = Except.error e2) := by
  refine ⟨?_, ?_, ?_, ?_⟩
  · intro h; subst h; rfl
  · intro e hfe hd; subst hfe; subst hd
    cases onCpu <;> exact ⟨rfl, rfl⟩
  · intro sd hfe hd; subst hfe; subst hd; rfl
  · intro e e2 hfe hd hc; subst hfe; subst hd; subst hc; rfl

/-- Witness for the C7 theorem: all three error-handling branches at
concrete inputs. -/
theorem load_model_from_file_fallbacks_witness :
    ((false : Bool) = false ∧
      load_model_from_file false (Except.error "boom") (Except.error "boom2") [("w", [0])] =
        { result := Except.ok [("w", [0])], warnings := 1, cpuRetries := 0 }) ∧
    ((load_model_from_file true (Except.error "boom") (Except.error "boom2")
        [("w", [0])]).cpuRetries = 1) ∧
    ((load_model_from_file true (Except.error "boom") (Except.error "boom2")
        [("w", [0])]).result = Except.error "boom2") :=
  ⟨⟨rfl,
      (load_model_from_file_fallbacks false (Except.error "boom") (Except.error "boom2")
        [("w", [0])]).1 rfl⟩,
    ((load_model_from_file_fallbacks true (Except.error "boom") (Except.error "boom2")
        [("w", [0])]).2.1 "boom" rfl rfl).1,
    (load_model_from_file_fallbacks true (Except.error "boom") (Except.error "boom2")
        [("w", [0])]).2.2.2 "boom" "boom2" rfl rfl rfl⟩

/-- Claim C8: `save_model` writes exactly
`<save_model_dir>/model_<client_idx>_<round>_<suffix>.model`, calls
`os.mkdir` exactly when the directory is absent, and the payload handed to
`torch.save` is the network's current parameter set alone. -/
theorem save_model_path_and_content (dir : String) (i r : Nat) (s : String)
    (params : StateDict) (dirExists : Bool) :
    (save_model dir i r s params dirExists).path =
      dir ++ "/" ++ "model_" ++ toString i ++ "_" ++ toString r ++ "_" ++ s ++ ".model" ∧
    (save_model dir i r s params dirExists).content = params ∧
    ((save_model dir i r s params dirExists).mkdirCalled = true ↔ dirExists = false) := by
  refine ⟨?_, rfl, ?_⟩
  · simp [save_model, osPathJoin, ← String.append_assoc]
  · cases dirExists <;> simp [save_model]

/-- Claim C9: when the test loader yields zero samples in total, `test`
raises `ZeroDivisionError` at `accuracy = 100 * correct / total` instead of
returning. -/
theorem test_zero_samples_division_error (batches : List (List (ℤ × ℤ)))
    (h : (batches.map List.length).sum = 0) :
    testAccuracy batches = Except.error PyErr.zeroDivisionError := by
  simp [testAccuracy, h]

/-- Witness for the C9 theorem at the empty test loader. -/
theorem test_zero_samples_division_error_witness :
    ((([] : List (List (ℤ × ℤ))).map List.length).sum = 0) ∧
    testAccuracy [] = Except.error PyErr.zeroDivisionError :=
  ⟨rfl, test_zero_samples_division_error [] rfl⟩

/-- Claim C10: `train` with `epochs = 0` performs no gradient step and no
start-suffix save, still performs the end-suffix save, and raises
`UnboundLocalError` at the final `return running_loss`. -/
theorem train_zero_epochs_unbound_local (r b li : Nat) (f : Nat → Nat → ℚ) :
    (train r 0 b li f).trace = [TrainEvent.saveEnd r] ∧
    (train r 0 b li f).result = Except.error PyErr.unboundLocalError := by
  constructor <;> simp [train]

end FLClient
